import Mathlib

/-!
Verification of the TradeMaster message-routing and tool-dispatch pipeline.

Shallow embedding of the core components:
* `core/llm.py`   — `LLMHandler`: conversation state, intent fallback, synthesis.
* `core/router_new.py` — `Router`: LangGraph workflow (gate → intent → tool → response).
* `bot/events.py` — `on_message`: proactive-cooldown gate and emission.
* `data/db.py`    — `Database.add_trade` / `Database.update_user_stats`.

External effects (LLM calls, JSON parsing of LLM output, memory logging) are
modelled as oracle parameters returning `Except String α`; an `Except.error`
models a raised Python exception.
-/

namespace TradeMaster

/-- A conversation-history entry, as stored in `LLMHandler.conversations`
(`{"role": ..., "content": ...}`). -/
structure Message where
  role : String
  content : String
  deriving DecidableEq, Repr

/-- Python truthiness of an optional string (`os.getenv` result): `None` and
the empty string are falsy. -/
def pyTruthy : Option String → Bool
  | none => false
  | some s => s ≠ ""

/-! ## Conversation state (`core/llm.py`) -/

/-- Python slice `l[-k:]` for a non-negative `k`: the last `k` elements,
except that `l[-0:]` is the whole list (since `-0 == 0`). -/
def pySliceLast (k : Nat) (l : List Message) : List Message :=
  if k = 0 then l else l.drop (l.length - k)

/-- Model of `process_message` lines 121–132: initialise the conversation with the
system message on first contact, or refresh the stored system entry with the
latest user context when a context summary is present. -/
def updateSystem (sys : Message) (ctxPresent : Bool) (conv : Option (List Message)) :
    List Message :=
  match conv with
  | none => [sys]
  | some h => if ctxPresent then h.set 0 sys else h

/-- History effect of one `LLMHandler.process_message` turn (lines 121–151):
refresh/instantiate the system entry, append the user message, truncate to
`1 + 2*context_window_size` keeping the first entry plus the Python slice
`[-(max_history-1):]`, then append the assistant reply when the LLM call
returned (`llmResp = some r`); on an exception during the call no assistant
entry is appended (`llmResp = none`). -/
def process_message_history (w : Nat) (sys : Message) (ctxPresent : Bool)
    (conv : Option (List Message)) (userMsg : Message) (llmResp : Option String) :
    List Message :=
  let h0 := updateSystem sys ctxPresent conv
  let h1 := h0 ++ [userMsg]
  let maxHistory := 1 + 2 * w
  let h2 :=
    if h1.length > maxHistory then h1.take 1 ++ pySliceLast (maxHistory - 1) h1
    else h1
  match llmResp with
  | some r => h2 ++ [⟨"assistant", r⟩]
  | none => h2

/-- History effect of the tool-output synthesis path
(`generate_response_with_tool_output`, lines 274–280): ensure the
conversation exists, then append the user message and the assistant reply.
No truncation is performed on this path. -/
def grwto_history (sysMsg : Message) (conv : Option (List Message))
    (origMsg resp : String) : List Message :=
  (conv.getD [sysMsg]) ++ [⟨"user", origMsg⟩, ⟨"assistant", resp⟩]

/-- Model of `LLMHandler.generate_response_with_tool_output` (lines 232–291), as a
function of its external effects: if the API key is falsy, return the tool
output unchanged and leave the conversation untouched (lines 252–254);
otherwise, on LLM success append the exchange and return the LLM reply
unless the subsequent memory logging raises, in which case the tool output
is returned (after the appends); on LLM-call exception return the tool
output with the conversation untouched. -/
def generate_response_with_tool_output (apiKey : Option String)
    (llmResp : Except String String) (logResult : Except String Unit)
    (sysMsg : Message) (conv : Option (List Message))
    (origMsg toolOutput : String) : String × Option (List Message) :=
  if pyTruthy apiKey = false then (toolOutput, conv)
  else
    match llmResp with
    | .error _ => (toolOutput, conv)
    | .ok r =>
      let conv' := some (grwto_history sysMsg conv origMsg r)
      match logResult with
      | .ok _ => (r, conv')
      | .error _ => (toolOutput, conv')

/-- Model of `LLMHandler.clear_conversation` (lines 345–361): if the user has a stored
conversation, keep only `conversations[user_id][0]` and return `True`
(indexing raises on an empty list); otherwise return `False`. The
conversation map is an association list `user_id → history`. -/
def clear_conversation (convs : List (String × List Message)) (uid : String) :
    Except String (List (String × List Message) × Bool) :=
  match (convs.lookup uid) with
  | none => .ok (convs, false)
  | some [] => .error "IndexError: list index out of range"
  | some (x :: _) =>
    .ok ((convs.map fun p => if p.1 = uid then (p.1, [x]) else p), true)

/-! ## Proactive cooldown gate (`bot/events.py`, lines 86–97) -/

/-- The cooldown map `bot.cooldowns : channel_id → last proactive send time`. -/
def Cooldowns := List (String × Int)

/-- Model of `events.py` lines 88–93: a proactive send to `ch` at time `now` is
permitted unless a recorded previous proactive send is less than 600 seconds
old. -/
def canSendProactive (cds : Cooldowns) (ch : String) (now : Int) : Bool :=
  match (List.lookup ch cds) with
  | none => true
  | some last => !(now - last < 600)

/-- Model of `events.py` line 97: record the proactive send time for the channel. -/
def recordProactiveSend (cds : Cooldowns) (ch : String) (now : Int) : Cooldowns :=
  (ch, now) :: (cds.filter fun p => p.1 ≠ ch)

/-- The emission logic of `on_message` (lines 83–108) given the router's
result `resp = (response, is_proactive)`: nothing is sent when `response` is
falsy; a proactive response consults the cooldown gate (suppressing, or
recording and sending); a non-proactive response is always sent. Returns the
updated cooldown map and the text sent (if any). -/
def on_message_send (cds : Cooldowns) (ch : String) (now : Int)
    (resp : Option String × Bool) : Cooldowns × Option String :=
  match resp.1 with
  | none => (cds, none)
  | some text =>
    if resp.2 then
      if canSendProactive cds ch now then (recordProactiveSend cds ch now, some text)
      else (cds, none)
    else (cds, some text)

/-! ## Router workflow (`core/router_new.py`) -/

/-- An entry of the router state's `messages` list: either a LangChain
message object (with a `.content` attribute), as built by `Router.analyze`,
or a plain Python dict, as built by `LLMHandler.analyze_intent`'s fallback
path (llm.py line 183). -/
inductive StateMsg where
  | langchainMsg (content : String)
  | pyDict (fields : List (String × String))
  deriving DecidableEq, Repr

/-- Python attribute access `m.content`: a plain dict has no such attribute,
so the access raises `AttributeError`. -/
def getattrContent : StateMsg → Except String String
  | .langchainMsg c => .ok c
  | .pyDict _ => .error "AttributeError: dict object has no attribute content"

/-- Access `messages[-1].content` (raises `IndexError` on an empty list). -/
def lastContent (msgs : List StateMsg) : Except String String :=
  match msgs.getLast? with
  | none => .error "IndexError: list index out of range"
  | some m => getattrContent m

/-- The `RouterState` dict (router_new.py lines 21–32), restricted to the
fields the workflow reads and writes (`metadata` is only passed through to
handlers and is absorbed into the handler oracles). -/
structure RouterState where
  messages : List StateMsg
  current_tool : Option String
  tool_response : Option String
  final_response : Option String
  should_continue : Bool
  deriving DecidableEq, Repr

/-- The initial state built by `Router.analyze` (lines 180–188): a single
LangChain `HumanMessage` wrapping the Discord message content. -/
def RouterState.init (msg : String) : RouterState :=
  { messages := [.langchainMsg msg], current_tool := none, tool_response := none,
    final_response := none, should_continue := true }

/-- An external LLM-backed step (the LLM call together with the JSON parsing
of its output and the dict-key lookup on the parse result), as an oracle. -/
abbrev Oracle (α : Type) := String → Except String α

/-- A specialized handler's `process(text, message_obj)` entry point. -/
abbrev HandlerFn := String → Except String String

/-- Model of `Router._should_respond` (lines 93–113): read `messages[-1].content`,
obtain the gate decision, store it in `should_continue`. -/
def should_respond_stage (gate : Oracle Bool) (st : RouterState) :
    Except String RouterState :=
  match lastContent st.messages with
  | .error e => .error e
  | .ok c =>
    match gate c with
    | .error e => .error e
    | .ok d => .ok { st with should_continue := d }

/-- Model of `Router._analyze_intent` (lines 115–135): read `messages[-1].content`,
obtain the tool selection, store it in `current_tool`. -/
def analyze_intent_stage (intentSel : Oracle String) (st : RouterState) :
    Except String RouterState :=
  match lastContent st.messages with
  | .error e => .error e
  | .ok c =>
    match intentSel c with
    | .error e => .error e
    | .ok t => .ok { st with current_tool := some t }

/-- The dictionary access `self.tools[tool]` (line 144): raises `KeyError`
when the selected name is not a key of the registry (or no selection was
stored). -/
def toolsGetItem (reg : String → Option HandlerFn) :
    Option String → Except String HandlerFn
  | none => .error "KeyError: None"
  | some t =>
    match reg t with
    | some f => .ok f
    | none => .error "KeyError"

/-- Model of `Router._execute_tool` (lines 137–150): look the selected tool up in the
registry, invoke its `process` on `messages[-1].content`, store the result
in `tool_response`. -/
def execute_tool_stage (reg : String → Option HandlerFn) (st : RouterState) :
    Except String RouterState :=
  match toolsGetItem reg st.current_tool with
  | .error e => .error e
  | .ok f =>
    match lastContent st.messages with
    | .error e => .error e
    | .ok c =>
      match f c with
      | .error e => .error e
      | .ok r => .ok { st with tool_response := some r }

/-- Model of `Router._generate_response` (lines 152–168): build the synthesis prompt
from the tool response and `messages[-1].content`, obtain the reply, store
it in `final_response`. -/
def generate_response_stage (synth : Option String → Oracle String)
    (st : RouterState) : Except String RouterState :=
  match lastContent st.messages with
  | .error e => .error e
  | .ok c =>
    match synth st.tool_response c with
    | .error e => .error e
    | .ok r => .ok { st with final_response := some r }

/-- The compiled workflow of `Router._build_workflow` (lines 71–91): the four
nodes are connected by unconditional edges `should_respond → analyze_intent →
execute_tool → generate_response`; no conditional edge consults
`should_continue`, so every stage runs unless one raises. -/
def workflow_ainvoke (gate : Oracle Bool) (intentSel : Oracle String)
    (reg : String → Option HandlerFn) (synth : Option String → Oracle String)
    (st : RouterState) : Except String RouterState :=
  match should_respond_stage gate st with
  | .error e => .error e
  | .ok s1 =>
    match analyze_intent_stage intentSel s1 with
    | .error e => .error e
    | .ok s2 =>
      match execute_tool_stage reg s2 with
      | .error e => .error e
      | .ok s3 => generate_response_stage synth s3

/-- The fixed fallback text of `Router.analyze`'s exception handler
(line 199). -/
def routerFallbackText : String :=
  "I'm having trouble processing your message right now. Please try again later."

/-- Model of `Router.analyze` (lines 170–199): run the workflow on the initial state;
on any exception return the fixed fallback text with `is_proactive = False`;
on completion return `(None, False)` when the stored gate decision is
`False`, else `(final_response, False)`. -/
def router_analyze (gate : Oracle Bool) (intentSel : Oracle String)
    (reg : String → Option HandlerFn) (synth : Option String → Oracle String)
    (msg : String) : Option String × Bool :=
  match workflow_ainvoke gate intentSel reg synth (RouterState.init msg) with
  | .error _ => (some routerFallbackText, false)
  | .ok fs => if fs.should_continue then (fs.final_response, false) else (none, false)

/-- The fixed tool registry of `Router.__init__` (lines 56–61), parameterized
by its four handler entry points. -/
def routerTools (hw hm hc hg : HandlerFn) : String → Option HandlerFn := fun t =>
  if t = "track_wallet" then some hw
  else if t = "market_trend" then some hm
  else if t = "trade_critique" then some hc
  else if t = "general" then some hg
  else none

/-- Model of `LLMHandler.analyze_intent`, no-API-key branch (llm.py lines 178–186):
builds a state whose `messages` list holds the plain dict
`{"content": text}` and runs `Router._analyze_intent` on it (the router's
Ollama LLM and its JSON parsing are the `intentSel` oracle); the stored tool
selection is returned with the fixed confidence `0.8`. -/
def analyze_intent_no_key (intentSel : Oracle String) (text : String) :
    Except String (Option String × ℚ) :=
  match analyze_intent_stage intentSel
      { messages := [.pyDict [("content", text)]], current_tool := none,
        tool_response := none, final_response := none, should_continue := true } with
  | .error e => .error e
  | .ok st => .ok (st.current_tool, 4/5)

/-! ## Trade ledger (`data/db.py`) -/

/-- A row of the `trades` table, restricted to the columns read by
`update_user_stats` (`user_id`, `trade_type`, and the nullable
`profit_loss`/`profit_loss_pct`); the remaining columns (symbol, amount,
prices, timestamp) are stored but never read by the stats rollup. -/
structure Trade where
  user_id : String
  trade_type : String
  profit_loss : Option ℚ
  profit_loss_pct : Option ℚ
  deriving DecidableEq, Repr

/-- The aggregate columns of a `user_stats` row written by
`update_user_stats` (`last_updated`, a wall-clock timestamp, is outside the
model). -/
structure UserStats where
  total_trades : Nat
  winning_trades : Nat
  average_profit_pct : ℚ
  largest_win_pct : Option ℚ
  largest_loss_pct : Option ℚ
  deriving DecidableEq, Repr

/-- Python `x > 0` on a nullable numeric column: comparing `None` with an
int raises `TypeError`. -/
def pyGtZero : Option ℚ → Except String Bool
  | none => .error "TypeError: NoneType comparison"
  | some v => .ok (decide (v > 0))

/-- Python `x < 0` on a nullable numeric column. -/
def pyLtZero : Option ℚ → Except String Bool
  | none => .error "TypeError: NoneType comparison"
  | some v => .ok (decide (v < 0))

/-- Python `sum(1 for t in trades if t["profit_loss"] > 0)` (db.py line 401). -/
def countWinning : List Trade → Except String Nat
  | [] => .ok 0
  | t :: ts =>
    match pyGtZero t.profit_loss with
    | .error e => .error e
    | .ok b =>
      match countWinning ts with
      | .error e => .error e
      | .ok n => .ok (if b then n + 1 else n)

/-- Python `[t["profit_loss_pct"] for t in trades if cond(t)]` where the filter
condition itself can raise (db.py lines 405–406). -/
def filterPcts (cond : Trade → Except String Bool) :
    List Trade → Except String (List (Option ℚ))
  | [] => .ok []
  | t :: ts =>
    match cond t with
    | .error e => .error e
    | .ok b =>
      match filterPcts cond ts with
      | .error e => .error e
      | .ok l => .ok (if b then t.profit_loss_pct :: l else l)

/-- Python `max(l, default=0)` over a list that may contain `None`: empty
list → the default `0`; singleton → its element (no comparison happens);
otherwise any `None` raises `TypeError` from the pairwise comparison, else
the maximum. -/
def pyMaxDefault0 : List (Option ℚ) → Except String (Option ℚ)
  | [] => .ok (some 0)
  | [x] => .ok x
  | x :: y :: xs =>
    match x, y with
    | some a, some b => pyMaxDefault0 (some (max a b) :: xs)
    | _, _ => .error "TypeError: NoneType comparison"
termination_by l => l.length
decreasing_by simp only [List.length_cons]; omega

/-- Python `min(l, default=0)`, same raising behaviour as `max`. -/
def pyMinDefault0 : List (Option ℚ) → Except String (Option ℚ)
  | [] => .ok (some 0)
  | [x] => .ok x
  | x :: y :: xs =>
    match x, y with
    | some a, some b => pyMinDefault0 (some (min a b) :: xs)
    | _, _ => .error "TypeError: NoneType comparison"
termination_by l => l.length
decreasing_by simp only [List.length_cons]; omega

/-- Python `sum(profit_loss_pcts) / len(profit_loss_pcts) if profit_loss_pcts
else 0` where the list keeps only non-`None` percentages (db.py lines
402–404); this computation never raises. -/
def avgPcts (ts : List Trade) : ℚ :=
  let ps := (ts.map Trade.profit_loss_pct).filterMap id
  if ps.isEmpty then 0 else ps.sum / ps.length

/-- The aggregate computation of `update_user_stats` (db.py lines 399–406)
over the user's complete trades, in source order: winning count (raises on a
`NULL` profit/loss), average, largest win, largest loss. -/
def computeUserStats (ts : List Trade) : Except String UserStats :=
  match countWinning ts with
  | .error e => .error e
  | .ok wins =>
    match filterPcts (fun t => pyGtZero t.profit_loss) ts with
    | .error e => .error e
    | .ok winPcts =>
      match pyMaxDefault0 winPcts with
      | .error e => .error e
      | .ok lw =>
        match filterPcts (fun t => pyLtZero t.profit_loss) ts with
        | .error e => .error e
        | .ok lossPcts =>
          match pyMinDefault0 lossPcts with
          | .error e => .error e
          | .ok ll =>
            .ok { total_trades := ts.length, winning_trades := wins,
                  average_profit_pct := avgPcts ts,
                  largest_win_pct := lw, largest_loss_pct := ll }

/-- The database state visible to the trade-stats contract: the `trades`
table and the `user_stats` table (keyed by user id). -/
structure DBState where
  trades : List Trade
  user_stats : List (String × UserStats)
  deriving DecidableEq, Repr

/-- Query `SELECT * FROM trades WHERE user_id = ? AND trade_type = 'complete'`
(db.py lines 389–392). -/
def completeTrades (trades : List Trade) (uid : String) : List Trade :=
  trades.filter fun t => t.user_id == uid && t.trade_type == "complete"

/-- Model of `Database.update_user_stats(user_id)` without a username, as called from
`add_trade` (db.py lines 375–446): recompute the aggregates from all of the
user's complete trades; with no such trades return `{}` without touching
`user_stats`; otherwise run the SQL `UPDATE`, which rewrites an existing row
and affects none when the user has no row, and return the aggregates. A
`TypeError` from comparing a `NULL` column is not caught (the `except`
clause catches only `sqlite3.Error`). -/
def update_user_stats (st : DBState) (uid : String) :
    Except String (DBState × Option UserStats) :=
  if (completeTrades st.trades uid).isEmpty then .ok (st, none)
  else
    match computeUserStats (completeTrades st.trades uid) with
    | .error e => .error e
    | .ok s =>
      .ok ({ st with user_stats :=
        st.user_stats.map fun p => if p.1 = uid then (p.1, s) else p }, some s)

/-- Model of `Database.add_trade` (db.py lines 305–344): insert the trade row, then,
when it is a `complete` trade with a non-`NULL` profit/loss, recompute the
user's stats. -/
def add_trade (st : DBState) (t : Trade) : Except String DBState :=
  let st1 : DBState := { st with trades := st.trades ++ [t] }
  if t.trade_type == "complete" && t.profit_loss.isSome then
    match update_user_stats st1 t.user_id with
    | .error e => .error e
    | .ok (st2, _) => .ok st2
  else .ok st1

/-! Concrete oracle fixtures used by witnesses and counterexamples. -/

/-- A gate oracle that always decides not to respond. -/
def gateFalse : Oracle Bool := fun _ => .ok false

/-- A gate oracle whose backing LLM call always raises. -/
def gateDown : Oracle Bool := fun _ => .error "LLM unavailable"

/-- An intent oracle that always selects the general handler. -/
def selGeneral : Oracle String := fun _ => .ok "general"

/-- A handler that raises on every call. -/
def crashingHandler : HandlerFn := fun _ => .error "handler crash"

/-- A handler that succeeds on every call. -/
def okHandler : HandlerFn := fun _ => .ok "handled"

/-- A synthesis oracle that always succeeds. -/
def synthOk : Option String → Oracle String := fun _ _ => .ok "synth"

end TradeMaster

namespace TradeMaster

/-! ## Claims C4, C6, C7 -/

/-- C4: when no LLM API key is configured, `generate_response_with_tool_output`
returns the handler (tool) output exactly, and the conversation state is
untouched, for every requester state, original message and tool output. -/
theorem C4_synthesis_identity (apiKey : Option String)
    (hkey : pyTruthy apiKey = false)
    (llmResp : Except String String) (logResult : Except String Unit)
    (sysMsg : Message) (conv : Option (List Message)) (origMsg toolOutput : String) :
    generate_response_with_tool_output apiKey llmResp logResult sysMsg conv
      origMsg toolOutput = (toolOutput, conv) := by
  unfold generate_response_with_tool_output
  rw [hkey]
  simp

/-- Witness for C4 at a concrete input: unset API key, would-be LLM reply
differing from the tool output. -/
theorem C4_synthesis_identity_witness :
    generate_response_with_tool_output none (.ok "llm says") (.ok ())
      ⟨"system", "S"⟩ (some [⟨"system", "S"⟩]) "orig" "tool out"
      = ("tool out", some [⟨"system", "S"⟩]) :=
  C4_synthesis_identity none rfl (.ok "llm says") (.ok ()) ⟨"system", "S"⟩
    (some [⟨"system", "S"⟩]) "orig" "tool out"

/-- C6: a proactive send is permitted iff no recorded previous proactive send
to that channel is less than 600 seconds old (so a first-ever send is always
permitted); concretely, after a send at `t = 0`, an attempt at `t = 599` is
suppressed and one at `t = 601` is allowed. -/
theorem C6_cooldown_gate (cds : Cooldowns) (ch : String) (now : Int) :
    (canSendProactive cds ch now = true ↔
      ∀ last, List.lookup ch cds = some last → ¬(now - last < 600)) ∧
    (canSendProactive [] ch 0 = true ∧
      canSendProactive (recordProactiveSend [] ch 0) ch 599 = false ∧
      canSendProactive (recordProactiveSend [] ch 0) ch 601 = true) := by
  constructor
  · unfold canSendProactive
    cases h : List.lookup ch cds with
    | none => simp
    | some last => simp
  · refine ⟨rfl, ?_, ?_⟩ <;> simp [canSendProactive, recordProactiveSend]

/-- After a first reset, the requester's entry still exists in the map, so a
lookup finds the truncated history. -/
theorem lookup_map_reset (convs : List (String × List Message)) (uid : String)
    (v : List Message) (w : List Message) (h : convs.lookup uid = some w) :
    (convs.map fun p => if p.1 = uid then (p.1, v) else p).lookup uid = some v := by
  induction convs with
  | nil => simp [List.lookup] at h
  | cons q rest ih =>
    obtain ⟨k, val⟩ := q
    by_cases hq : k = uid
    · subst hq
      have hf : ((k, val) :: rest).map (fun p => if p.1 = k then (p.1, v) else p)
          = (k, v) :: rest.map (fun p => if p.1 = k then (p.1, v) else p) := by
        simp
      rw [hf]
      simp [List.lookup]
    · have hne : (uid == k) = false := by
        cases hbeq : uid == k with
        | false => rfl
        | true => exact absurd (eq_of_beq hbeq).symm hq
      simp only [List.lookup, hne] at h
      have hf : ((k, val) :: rest).map (fun p => if p.1 = uid then (p.1, v) else p)
          = (k, val) :: rest.map (fun p => if p.1 = uid then (p.1, v) else p) := by
        simp [hq]
      rw [hf]
      simp only [List.lookup, hne]
      exact ih h

/-- Rewriting every entry of a requester to the same one-element history is
idempotent on the conversation map. -/
theorem map_reset_idem (convs : List (String × List Message)) (uid : String)
    (v : List Message) :
    ((convs.map fun p => if p.1 = uid then (p.1, v) else p).map
        fun p => if p.1 = uid then (p.1, v) else p)
      = convs.map fun p => if p.1 = uid then (p.1, v) else p := by
  rw [List.map_map]
  apply List.map_congr_left
  intro p _
  by_cases hp : p.1 = uid <;> simp [hp]

/-- Evaluation of `clear_conversation` on a state where the requester has a
non-empty stored history. -/
theorem clear_conversation_eq (convs : List (String × List Message)) (uid : String)
    (x : Message) (xs : List Message) (h : convs.lookup uid = some (x :: xs)) :
    clear_conversation convs uid
      = .ok (convs.map fun p => if p.1 = uid then (p.1, [x]) else p, true) := by
  unfold clear_conversation
  rw [h]

/-- C7 counterexample: the claim says a second reset on an already-cleared
history returns `false`; in the code the requester's entry persists (as a
single system entry), so a second `clear_conversation` on the cleared state
returns `true` again. -/
theorem C7_counterexample :
    clear_conversation [("u", [⟨"system", "S"⟩, ⟨"user", "hi"⟩])] "u"
      = .ok ([("u", [⟨"system", "S"⟩])], true) ∧
    clear_conversation [("u", [⟨"system", "S"⟩])] "u"
      = .ok ([("u", [⟨"system", "S"⟩])], true) := by
  exact ⟨rfl, rfl⟩

/-- C7 amended: `clear_conversation` truncates a present, non-empty history
to exactly its first entry and returns `true` whenever the requester has a
stored conversation — including one that was already reset, so a second
reset returns `true` again with the state unchanged; it returns `false`
only when no conversation entry exists at all, and it does not raise on any
state whose stored histories are non-empty. -/
theorem C7_reset_semantics (convs : List (String × List Message)) (uid : String) :
    (convs.lookup uid = none → clear_conversation convs uid = .ok (convs, false)) ∧
    (∀ x xs, convs.lookup uid = some (x :: xs) →
      clear_conversation convs uid
        = .ok (convs.map fun p => if p.1 = uid then (p.1, [x]) else p, true) ∧
      clear_conversation (convs.map fun p => if p.1 = uid then (p.1, [x]) else p) uid
        = .ok (convs.map fun p => if p.1 = uid then (p.1, [x]) else p, true)) := by
  constructor
  · intro h
    unfold clear_conversation
    rw [h]
  · intro x xs h
    constructor
    · exact clear_conversation_eq convs uid x xs h
    · have h2 := lookup_map_reset convs uid [x] (x :: xs) h
      rw [clear_conversation_eq _ uid x [] h2, map_reset_idem]

/-- Witness for C7 amended at a concrete state: a two-entry history resets
to the single system entry with result `true`. -/
theorem C7_reset_semantics_witness :
    clear_conversation [("u", [⟨"system", "S"⟩, ⟨"user", "q"⟩])] "u"
      = .ok ([("u", [⟨"system", "S"⟩])], true) := by
  have h := (C7_reset_semantics [("u", [⟨"system", "S"⟩, ⟨"user", "q"⟩])] "u").2
    ⟨"system", "S"⟩ [⟨"user", "q"⟩] rfl
  simpa using h.1

end TradeMaster

namespace TradeMaster

/-! ## Router evaluation -/

/-- Reading the last message of the singleton list built by `Router.analyze`
succeeds with the message content. -/
theorem lastContent_init (msg : String) :
    lastContent [StateMsg.langchainMsg msg] = .ok msg := rfl

/-- Big-step evaluation of `Router.analyze` as a function of its oracles:
the stages run in sequence regardless of the stored gate decision, any
exception anywhere yields the fixed fallback pair, and the decision is only
consulted at the very end. -/
theorem router_analyze_eval (gate : Oracle Bool) (intentSel : Oracle String)
    (reg : String → Option HandlerFn) (synth : Option String → Oracle String)
    (msg : String) :
    router_analyze gate intentSel reg synth msg =
      match gate msg with
      | .error _ => (some routerFallbackText, false)
      | .ok d =>
        match intentSel msg with
        | .error _ => (some routerFallbackText, false)
        | .ok t =>
          match toolsGetItem reg (some t) with
          | .error _ => (some routerFallbackText, false)
          | .ok f =>
            match f msg with
            | .error _ => (some routerFallbackText, false)
            | .ok r =>
              match synth (some r) msg with
              | .error _ => (some routerFallbackText, false)
              | .ok resp => if d then (some resp, false) else (none, false) := by
  unfold router_analyze workflow_ainvoke should_respond_stage analyze_intent_stage
    execute_tool_stage generate_response_stage RouterState.init
  simp only [lastContent_init]
  cases gate msg with
  | error e => rfl
  | ok d =>
    simp only [lastContent_init]
    cases intentSel msg with
    | error e => rfl
    | ok t =>
      simp only [lastContent_init]
      cases toolsGetItem reg (some t) with
      | error e => rfl
      | ok f =>
        simp only [lastContent_init]
        cases f msg with
        | error e => rfl
        | ok r =>
          simp only [lastContent_init]
          cases synth (some r) msg with
          | error e => rfl
          | ok resp => rfl

/-! ## Claims C1, C3, C5, C9, C10 -/

/-- C1 (code bug): with no LLM credentials configured, the fallback path of
`analyze_intent` raises `AttributeError` for every input text — it hands
`Router._analyze_intent` a state whose messages are plain dicts, and the
stage reads `.content` from them — instead of returning one of the four
intent labels with a confidence; even absent that bug, the path would
consult the router's Ollama LLM rather than a deterministic keyword
matcher. -/
theorem C1_fallback_raises (intentSel : Oracle String) (text : String) :
    analyze_intent_no_key intentSel text
      = .error "AttributeError: dict object has no attribute content" := rfl

/-- C3: if every handler's `process` raises on every call, the exception
never escapes `Router.analyze`: the turn completes with the fixed generic
fallback text — independent of the exception's payload, so no internal
error detail reaches the user — and `is_proactive = False`, for every gate,
intent-selection and synthesis oracle. -/
theorem C3_dispatch_isolation (gate : Oracle Bool) (intentSel : Oracle String)
    (synth : Option String → Oracle String) (hw hm hc hg : HandlerFn) (msg : String)
    (hfail : ∀ f, f ∈ [hw, hm, hc, hg] → ∀ x, ∃ e, f x = Except.error e) :
    router_analyze gate intentSel (routerTools hw hm hc hg) synth msg
      = (some routerFallbackText, false) := by
  rcases hgd : gate msg with e | d
  · simp [router_analyze_eval, hgd]
  · rcases hi : intentSel msg with e | t
    · simp [router_analyze_eval, hgd, hi]
    · by_cases h1 : t = "track_wallet"
      · subst h1
        obtain ⟨e, he⟩ := hfail hw (by simp) msg
        simp [router_analyze_eval, hgd, hi,
          show toolsGetItem (routerTools hw hm hc hg) (some "track_wallet")
            = .ok hw from rfl, he]
      · by_cases h2 : t = "market_trend"
        · subst h2
          obtain ⟨e, he⟩ := hfail hm (by simp) msg
          simp [router_analyze_eval, hgd, hi,
            show toolsGetItem (routerTools hw hm hc hg) (some "market_trend")
              = .ok hm from rfl, he]
        · by_cases h3 : t = "trade_critique"
          · subst h3
            obtain ⟨e, he⟩ := hfail hc (by simp) msg
            simp [router_analyze_eval, hgd, hi,
              show toolsGetItem (routerTools hw hm hc hg) (some "trade_critique")
                = .ok hc from rfl, he]
          · by_cases h4 : t = "general"
            · subst h4
              obtain ⟨e, he⟩ := hfail hg (by simp) msg
              simp [router_analyze_eval, hgd, hi,
                show toolsGetItem (routerTools hw hm hc hg) (some "general")
                  = .ok hg from rfl, he]
            · have hreg : toolsGetItem (routerTools hw hm hc hg) (some t)
                  = .error "KeyError" := by
                have hnone : routerTools hw hm hc hg t = none := by
                  unfold routerTools
                  rw [if_neg h1, if_neg h2, if_neg h3, if_neg h4]
                simp [toolsGetItem, hnone]
              simp [router_analyze_eval, hgd, hi, hreg]

/-- Witness for C3: all four handlers raise, the gate and the other oracles
succeed; the turn returns the fixed fallback pair. -/
theorem C3_dispatch_isolation_witness :
    router_analyze (fun _ => .ok true) selGeneral
      (routerTools crashingHandler crashingHandler crashingHandler crashingHandler)
      synthOk "hello" = (some routerFallbackText, false) := by
  apply C3_dispatch_isolation
  intro f hf x
  simp only [List.mem_cons, List.not_mem_nil, or_false] at hf
  rcases hf with h | h | h | h <;> subst h <;> exact ⟨"handler crash", rfl⟩

/-- C5 counterexample: the gate decides `False`, yet with a handler that
raises, `Router.analyze` returns the fallback pair instead of the claimed
`(None, False)` — the handler was executed after the negative decision. -/
theorem C5_counterexample :
    router_analyze gateFalse selGeneral
      (routerTools crashingHandler crashingHandler crashingHandler crashingHandler)
      synthOk "hello" = (some routerFallbackText, false) ∧
    router_analyze gateFalse selGeneral
      (routerTools crashingHandler crashingHandler crashingHandler crashingHandler)
      synthOk "hello" ≠ (none, false) := by
  have h1 : router_analyze gateFalse selGeneral
      (routerTools crashingHandler crashingHandler crashingHandler crashingHandler)
      synthOk "hello" = (some routerFallbackText, false) := rfl
  refine ⟨h1, ?_⟩
  rw [h1]
  simp

/-- C5 amended: when the gate decides `False`, `Router.analyze` still runs
intent classification, handler execution and response synthesis — the
outcome is determined by those later stages: `(None, False)` when they all
succeed (their results discarded), and `(fallbackText, False)` when any of
them raises. -/
theorem C5_suppression (gate : Oracle Bool) (intentSel : Oracle String)
    (reg : String → Option HandlerFn) (synth : Option String → Oracle String)
    (msg : String) (hgate : gate msg = .ok false) :
    router_analyze gate intentSel reg synth msg =
      match intentSel msg with
      | .error _ => (some routerFallbackText, false)
      | .ok t =>
        match toolsGetItem reg (some t) with
        | .error _ => (some routerFallbackText, false)
        | .ok f =>
          match f msg with
          | .error _ => (some routerFallbackText, false)
          | .ok r =>
            match synth (some r) msg with
            | .error _ => (some routerFallbackText, false)
            | .ok _ => (none, false) := by
  rw [router_analyze_eval, hgate]
  rfl

/-- Witness for C5 amended: gate decides `False` and every later stage
succeeds; the result is `(None, False)`. -/
theorem C5_suppression_witness :
    router_analyze gateFalse selGeneral
      (routerTools okHandler okHandler okHandler okHandler) synthOk "hi"
      = (none, false) :=
  (C5_suppression gateFalse selGeneral
    (routerTools okHandler okHandler okHandler okHandler) synthOk "hi" rfl).trans rfl

/-- C9 counterexample: for an ambient message whose should-respond LLM call
fails, the orchestrator does not stay silent: it returns the generic
fallback text, and `on_message` sends it. -/
theorem C9_counterexample :
    (router_analyze gateDown selGeneral
      (routerTools okHandler okHandler okHandler okHandler) synthOk "ambient").1 ≠ none ∧
    (on_message_send [] "chan" 0 (router_analyze gateDown selGeneral
      (routerTools okHandler okHandler okHandler okHandler) synthOk "ambient")).2
      = some routerFallbackText := by
  have h1 : router_analyze gateDown selGeneral
      (routerTools okHandler okHandler okHandler okHandler) synthOk "ambient"
      = (some routerFallbackText, false) := rfl
  constructor
  · rw [h1]
    simp
  · rw [h1]
    rfl

/-- C9 amended: if the LLM call backing the should-respond decision raises,
the exception reaches the orchestrator boundary, which returns the generic
fallback text with `is_proactive = False`; `on_message` then emits that
text — the gate fails open with a fixed apology rather than closed with
silence. -/
theorem C9_gate_failure (gate : Oracle Bool) (intentSel : Oracle String)
    (reg : String → Option HandlerFn) (synth : Option String → Oracle String)
    (msg e : String) (cds : Cooldowns) (ch : String) (now : Int)
    (hgate : gate msg = .error e) :
    router_analyze gate intentSel reg synth msg = (some routerFallbackText, false) ∧
    (on_message_send cds ch now (router_analyze gate intentSel reg synth msg)).2
      = some routerFallbackText := by
  have h1 : router_analyze gate intentSel reg synth msg
      = (some routerFallbackText, false) := by
    rw [router_analyze_eval, hgate]
  refine ⟨h1, ?_⟩
  rw [h1]
  rfl

/-- Witness for C9 amended: a concrete failing gate; the fallback text is
returned and emitted. -/
theorem C9_gate_failure_witness :
    router_analyze gateDown selGeneral
      (routerTools okHandler okHandler okHandler okHandler) synthOk "hey"
      = (some routerFallbackText, false) ∧
    (on_message_send [] "c" 5 (router_analyze gateDown selGeneral
      (routerTools okHandler okHandler okHandler okHandler) synthOk "hey")).2
      = some routerFallbackText :=
  C9_gate_failure gateDown selGeneral
    (routerTools okHandler okHandler okHandler okHandler) synthOk
    "hey" "LLM unavailable" [] "c" 5 rfl

/-- On every path of `Router.analyze` — workflow exception, suppression and
success — the returned `is_proactive` flag is `False`. -/
theorem router_analyze_snd (gate : Oracle Bool) (intentSel : Oracle String)
    (reg : String → Option HandlerFn) (synth : Option String → Oracle String)
    (msg : String) : (router_analyze gate intentSel reg synth msg).2 = false := by
  unfold router_analyze
  cases workflow_ainvoke gate intentSel reg synth (RouterState.init msg) with
  | error e => rfl
  | ok fs => by_cases h : fs.should_continue <;> simp [h]

/-- A non-proactive router result bypasses the cooldown logic of
`on_message` entirely: the cooldown map is unchanged and the response is
passed through. -/
theorem on_message_send_not_proactive (cds : Cooldowns) (ch : String) (now : Int)
    (resp : Option String × Bool) (h : resp.2 = false) :
    on_message_send cds ch now resp = (cds, resp.1) := by
  rcases resp with ⟨ro, rp⟩
  cases rp with
  | false =>
    cases ro with
    | none => rfl
    | some t => rfl
  | true => simp at h

/-- C10: the second component of `Router.analyze`'s result is `False` on
every path — success, suppression and error alike — so in `on_message` the
proactive-cooldown branch is never taken: the cooldown map is left unchanged
and the response, when present, is sent unconditionally. -/
theorem C10_never_proactive (gate : Oracle Bool) (intentSel : Oracle String)
    (reg : String → Option HandlerFn) (synth : Option String → Oracle String)
    (msg : String) (cds : Cooldowns) (ch : String) (now : Int) :
    (router_analyze gate intentSel reg synth msg).2 = false ∧
    on_message_send cds ch now (router_analyze gate intentSel reg synth msg)
      = (cds, (router_analyze gate intentSel reg synth msg).1) :=
  ⟨router_analyze_snd gate intentSel reg synth msg,
    on_message_send_not_proactive cds ch now _
      (router_analyze_snd gate intentSel reg synth msg)⟩

end TradeMaster

namespace TradeMaster

/-! ## Claim C2 -/

/-- Shape of the truncation step of `process_message` (llm.py lines
140–144): for a positive window the result keeps the first entry and is at
most `1 + 2*w` long — regardless of how long the input was. -/
theorem trunc_shape (w : Nat) (hw : 1 ≤ w) (m0 : Message) (tl : List Message) :
    ((if (m0 :: tl).length > 1 + 2 * w
        then (m0 :: tl).take 1 ++ pySliceLast (1 + 2 * w - 1) (m0 :: tl)
        else (m0 :: tl)).length ≤ 1 + 2 * w) ∧
    ∃ rest, (if (m0 :: tl).length > 1 + 2 * w
        then (m0 :: tl).take 1 ++ pySliceLast (1 + 2 * w - 1) (m0 :: tl)
        else (m0 :: tl)) = m0 :: rest := by
  by_cases hc : (m0 :: tl).length > 1 + 2 * w
  · rw [if_pos hc]
    have h2w : 1 + 2 * w - 1 = 2 * w := by omega
    constructor
    · rw [h2w]
      unfold pySliceLast
      rw [if_neg (by omega : ¬ 2 * w = 0)]
      simp only [List.length_append, List.length_take, List.length_drop,
        List.length_cons]
      omega
    · exact ⟨pySliceLast (1 + 2 * w - 1) (m0 :: tl), rfl⟩
  · rw [if_neg hc]
    exact ⟨by omega, tl, rfl⟩

/-- C2 counterexample: with `context_window_size = 1` (bound `1+2*w = 3`),
two `process_message` turns leave the history at length 4: the truncation to
`1+2*w` happens before the assistant reply is appended. -/
theorem C2_counterexample :
    ¬ (process_message_history 1 ⟨"system", "S"⟩ false
        (some (process_message_history 1 ⟨"system", "S"⟩ false none
          ⟨"user", "u1"⟩ (some "a1")))
        ⟨"user", "u2"⟩ (some "a2")).length ≤ 1 + 2 * 1 := by
  decide

/-- C2 amended: at the end of every `process_message` turn the history
length is at most `2 + 2*window_size` — not `1 + 2*window_size`, since the
truncation to `1 + 2*w` precedes the assistant append — and the first
element is a system-role entry (created, refreshed to the current
system-context message, or retained), with eviction dropping only later
entries. The tool-output synthesis path performs no eviction at all: it
always grows the history by exactly two entries. -/
theorem C2_history_invariant (w : Nat) (hw : 1 ≤ w) (sys : Message)
    (hsys : sys.role = "system") (ctxPresent : Bool)
    (conv : Option (List Message)) (userMsg : Message) (llmResp : Option String)
    (hconv : ∀ h, conv = some h → ∃ m rest, h = m :: rest ∧ m.role = "system") :
    ((process_message_history w sys ctxPresent conv userMsg llmResp).length
        ≤ 2 + 2 * w ∧
      ∃ m rest, process_message_history w sys ctxPresent conv userMsg llmResp
        = m :: rest ∧ m.role = "system") ∧
    (∀ c o r, (grwto_history sys c o r).length = (c.getD [sys]).length + 2) := by
  constructor
  · obtain ⟨m0, rest0, hh0, hm0⟩ :
        ∃ m0 rest0, updateSystem sys ctxPresent conv = m0 :: rest0 ∧
          m0.role = "system" := by
      cases conv with
      | none => exact ⟨sys, [], rfl, hsys⟩
      | some h =>
        obtain ⟨m, rest, hmr, hrole⟩ := hconv h rfl
        subst hmr
        cases ctxPresent with
        | true => exact ⟨sys, rest, by simp [updateSystem], hsys⟩
        | false => exact ⟨m, rest, by simp [updateSystem], hrole⟩
    obtain ⟨hl2, rest2, hshape⟩ := trunc_shape w hw m0 (rest0 ++ [userMsg])
    cases llmResp with
    | none =>
      have hexpr : process_message_history w sys ctxPresent conv userMsg none
          = (if (m0 :: (rest0 ++ [userMsg])).length > 1 + 2 * w
              then (m0 :: (rest0 ++ [userMsg])).take 1
                ++ pySliceLast (1 + 2 * w - 1) (m0 :: (rest0 ++ [userMsg]))
              else m0 :: (rest0 ++ [userMsg])) := by
        unfold process_message_history
        rw [hh0]
        rfl
      rw [hexpr, hshape]
      rw [hshape] at hl2
      refine ⟨?_, m0, rest2, rfl, hm0⟩
      simp only [List.length_cons] at hl2 ⊢
      omega
    | some r =>
      have hexpr : process_message_history w sys ctxPresent conv userMsg (some r)
          = (if (m0 :: (rest0 ++ [userMsg])).length > 1 + 2 * w
              then (m0 :: (rest0 ++ [userMsg])).take 1
                ++ pySliceLast (1 + 2 * w - 1) (m0 :: (rest0 ++ [userMsg]))
              else m0 :: (rest0 ++ [userMsg])) ++ [⟨"assistant", r⟩] := by
        unfold process_message_history
        rw [hh0]
        rfl
      rw [hexpr, hshape]
      rw [hshape] at hl2
      refine ⟨?_, m0, rest2 ++ [(⟨"assistant", r⟩ : Message)], rfl, hm0⟩
      simp only [List.length_append, List.length_cons, List.length_nil] at hl2 ⊢
      omega
  · intro c o r
    simp [grwto_history]

/-- Witness for C2 amended at a concrete state: window 1, an existing
two-entry history with a system head, a refreshed context; the end-of-turn
length is within `2 + 2*1`. -/
theorem C2_history_invariant_witness :
    (process_message_history 1 ⟨"system", "S"⟩ true
      (some [⟨"system", "old"⟩, ⟨"user", "u1"⟩]) ⟨"user", "u2"⟩
      (some "a2")).length ≤ 2 + 2 * 1 :=
  (C2_history_invariant 1 (by decide) ⟨"system", "S"⟩ rfl true
    (some [⟨"system", "old"⟩, ⟨"user", "u1"⟩]) ⟨"user", "u2"⟩ (some "a2")
    (by
      intro h hh
      injection hh with hh
      subst hh
      exact ⟨⟨"system", "old"⟩, [⟨"user", "u1"⟩], rfl, rfl⟩)).1.1

/-! ## Claim C8 -/

/-- Rewriting every entry of a key to the same value is idempotent on an
association list. -/
theorem map_upsert_idem {β : Type} (l : List (String × β)) (uid : String) (v : β) :
    ((l.map fun p => if p.1 = uid then (p.1, v) else p).map
        fun p => if p.1 = uid then (p.1, v) else p)
      = l.map fun p => if p.1 = uid then (p.1, v) else p := by
  rw [List.map_map]
  apply List.map_congr_left
  intro p _
  by_cases hp : p.1 = uid <;> simp [hp]

/-- C8: recording a completed trade with a non-null profit/loss triggers
`update_user_stats`, which recomputes the aggregates from the full set of
that user's completed trades (including the new row); and recomputing on an
unchanged trade set is idempotent — a second `update_user_stats` run returns
the same aggregates and leaves the state fixed (no drift). -/
theorem C8_stats_recompute (st : DBState) (t : Trade) (uid : String)
    (st' : DBState) (r : Option UserStats)
    (ht : t.trade_type = "complete" ∧ t.profit_loss.isSome = true)
    (hrun : update_user_stats st uid = .ok (st', r)) :
    add_trade st t
      = Except.map Prod.fst
          (update_user_stats { st with trades := st.trades ++ [t] } t.user_id) ∧
    update_user_stats st' uid = .ok (st', r) := by
  constructor
  · unfold add_trade
    have hcond : (t.trade_type == "complete" && t.profit_loss.isSome) = true := by
      rw [ht.2]
      simp [ht.1]
    rw [if_pos hcond]
    cases update_user_stats { st with trades := st.trades ++ [t] } t.user_id with
    | error e => rfl
    | ok p => rcases p with ⟨st2, r2⟩; rfl
  · obtain ⟨tr, us⟩ := st
    simp only [update_user_stats] at hrun
    by_cases hemp : (completeTrades tr uid).isEmpty
    · rw [if_pos hemp] at hrun
      have h := Except.ok.inj hrun
      obtain ⟨h1, h2⟩ : st' = ⟨tr, us⟩ ∧ r = none :=
        ⟨(congrArg Prod.fst h).symm, (congrArg Prod.snd h).symm⟩
      subst h1
      subst h2
      simp only [update_user_stats]
      rw [if_pos hemp]
    · rw [if_neg hemp] at hrun
      cases hcomp : computeUserStats (completeTrades tr uid) with
      | error e => rw [hcomp] at hrun; cases hrun
      | ok s =>
        rw [hcomp] at hrun
        have h := Except.ok.inj hrun
        obtain ⟨h1, h2⟩ :
            st' = ⟨tr, us.map (fun p => if p.1 = uid then (p.1, s) else p)⟩ ∧
              r = some s :=
          ⟨(congrArg Prod.fst h).symm, (congrArg Prod.snd h).symm⟩
        subst h1
        subst h2
        simp only [update_user_stats]
        rw [if_neg hemp, hcomp]
        simp only [List.map_map]
        simp
        intro a b hmem hab
        by_cases ha : a = uid <;> simp [ha] at hab ⊢

/-- Witness for C8 at a concrete state: recording a completed winning trade
into an empty ledger; the stats recomputation runs over the full
(one-element) trade set, and a rerun on the empty prior state is stable. -/
theorem C8_stats_recompute_witness :
    add_trade ⟨[], []⟩ ⟨"u", "complete", some 5, some 10⟩
      = Except.map Prod.fst (update_user_stats
          { trades := [⟨"u", "complete", some 5, some 10⟩], user_stats := [] } "u") ∧
    update_user_stats ⟨[], []⟩ "u" = .ok (⟨[], []⟩, none) := by
  have h := C8_stats_recompute ⟨[], []⟩ ⟨"u", "complete", some 5, some 10⟩ "u"
    ⟨[], []⟩ none ⟨rfl, rfl⟩ rfl
  exact ⟨h.1, h.2⟩

end TradeMaster
